import Mathlib

/-!
Verification of the AgendaPrime calendar page script (src/static/agenda.js).

The script is a single DOMContentLoaded handler. We embed it shallowly:
the DOM is a lookup function from element identifier to an optional
element, the platform JSON deserializer and the external FullCalendar
library are opaque collaborators, so the deserializer is a parameter
returning `Except` (a JS exception becomes `Except.error` with the
exception detail as a string) and the library constructor and the render
call are recorded in the returned result rather than executed.
-/

/-- A JSON value, as produced by the platform deserializer. -/
inductive Json where
  | null : Json
  | bool (b : Bool) : Json
  | num (n : Int) : Json
  | str (s : String) : Json
  | arr (elems : List Json) : Json
  | obj (fields : List (String × Json)) : Json


/-- A DOM element, reduced to the only attribute the script reads. -/
structure Element where
  textContent : String


/-- One argument passed to a console method. -/
inductive ConsoleArg where
  | str (s : String) : ConsoleArg
  | json (v : Json) : ConsoleArg


/-- One entry written to the console: either console.log or console.error. -/
inductive ConsoleEntry where
  | log (args : List ConsoleArg) : ConsoleEntry
  | error (args : List ConsoleArg) : ConsoleEntry


/-- Whether a console entry is an error-level diagnostic. -/
def ConsoleEntry.isError : ConsoleEntry → Bool
  | .log _ => false
  | .error _ => true

/-- The headerToolbar option object (agenda.js lines 21-25). -/
structure HeaderToolbar where
  left : String
  center : String
  right : String


/-- The eventTimeFormat option object (agenda.js lines 28-32). -/
structure EventTimeFormat where
  hour : String
  minute : String
  hour12 : Bool


/-- The configuration object handed to FullCalendar.Calendar
(agenda.js lines 19-38). -/
structure CalendarConfig where
  initialView : String
  headerToolbar : HeaderToolbar
  events : Json
  eventDisplay : String
  eventTimeFormat : EventTimeFormat
  locale : String
  height : String
  allDaySlot : Bool
  slotMinTime : String
  slotMaxTime : String


/-- The observable outcome of one run of the handler: the console output,
the constructor call made on the external library (mount element and
configuration), if any, and the number of render calls. -/
structure InitResult where
  console : List ConsoleEntry
  calendar : Option (Option Element × CalendarConfig)
  renderCalls : Nat


/-- The configuration literal of agenda.js lines 19-38: every field except
`events` is a constant. -/
def agendaConfig (events : Json) : CalendarConfig :=
  { initialView := "timeGridWeek"
    headerToolbar :=
      { left := "prev,next today"
        center := "title"
        right := "dayGridMonth,timeGridWeek,timeGridDay,listWeek" }
    events := events
    eventDisplay := "block"
    eventTimeFormat := { hour := "2-digit", minute := "2-digit", hour12 := false }
    locale := "fr"
    height := "auto"
    allDaySlot := false
    slotMinTime := "07:00:00"
    slotMaxTime := "20:00:00" }

/-- The DOMContentLoaded handler of agenda.js, lines 1-41.
`getElementById` is the page state; `jsonParse` is the platform JSON
deserializer. Control flow follows the source: look up both elements,
abort with a diagnostic when the data container is absent, otherwise try
to deserialize (the catch block keeps the initial empty array and logs
the exception detail), then construct the calendar and render it. -/
def domContentLoadedHandler (getElementById : String → Option Element)
    (jsonParse : String → Except String Json) : InitResult :=
  let calendarEl := getElementById "calendar"
  let eventsData := getElementById "events-data"
  match eventsData with
  | none =>
      { console := [.error [.str "Éléments events-data introuvable !"]]
        calendar := none
        renderCalls := 0 }
  | some ed =>
      match jsonParse ed.textContent with
      | .ok parsed =>
          { console := [.log [.str "Événements chargés :", .json parsed]]
            calendar := some (calendarEl, agendaConfig parsed)
            renderCalls := 1 }
      | .error e =>
          { console := [.error [.str "Erreur lors de l\x27analyse des événements :", .str e]]
            calendar := some (calendarEl, agendaConfig (Json.arr []))
            renderCalls := 1 }

/-- A concrete page holding both the mount element and a data container
with text `[]`, used to evaluate the theorems on concrete inputs. -/
def pageWithData : String → Option Element :=
  fun id =>
    if id = "calendar" then some { textContent := "" }
    else if id = "events-data" then some { textContent := "[]" }
    else none

/-- A concrete page with a mount element but no data container. -/
def pageNoData : String → Option Element :=
  fun id => if id = "calendar" then some { textContent := "" } else none

/-- A concrete page with a data container but no mount element. -/
def pageNoMount : String → Option Element :=
  fun id => if id = "events-data" then some { textContent := "[]" } else none

/-- A concrete deserializer that accepts exactly the text `[]`. -/
def parseEmptyArray : String → Except String Json :=
  fun s => if s = "[]" then Except.ok (Json.arr []) else Except.error "unexpected token"

/-- A concrete deserializer that always fails. -/
def parseAlwaysFails : String → Except String Json :=
  fun _ => Except.error "unexpected token"

/-- A concrete deserializer that returns the non-array value 42 on every
input. -/
def parseNum42 : String → Except String Json :=
  fun _ => Except.ok (Json.num 42)

/-- The events data source of the constructed calendar, when one was
constructed. -/
def InitResult.eventsSource (r : InitResult) : Option Json :=
  r.calendar.map fun mc => mc.2.events

/-- The mount-element argument handed to the library constructor, when a
calendar was constructed. -/
def InitResult.mountArg (r : InitResult) : Option (Option Element) :=
  r.calendar.map Prod.fst

/-- Shared shape lemma: whenever the handler constructs a calendar, its
configuration is `agendaConfig` at some event value. -/
theorem handler_calendar_shape (g : String → Option Element)
    (p : String → Except String Json) (m : Option Element) (c : CalendarConfig)
    (h : (domContentLoadedHandler g p).calendar = some (m, c)) :
    ∃ ev, c = agendaConfig ev := by
  unfold domContentLoadedHandler at h
  cases hge : g "events-data" with
  | none => simp [hge] at h
  | some ed =>
    cases hp : p ed.textContent with
    | ok v =>
      refine ⟨v, ?_⟩
      simp [hge, hp] at h
      exact h.2.symm
    | error e =>
      refine ⟨Json.arr [], ?_⟩
      simp [hge, hp] at h
      exact h.2.symm

/-- C1: when no element with identifier events-data exists, the handler
emits the missing-container diagnostic and returns: no calendar is
constructed, render is never invoked, and the handler completes normally
(the entire observable outcome is exactly the one diagnostic). -/
theorem missing_container_aborts (g : String → Option Element)
    (p : String → Except String Json) (h : g "events-data" = none) :
    domContentLoadedHandler g p =
      { console := [.error [.str "Éléments events-data introuvable !"]]
        calendar := none
        renderCalls := 0 } := by
  simp [domContentLoadedHandler, h]

/-- Witness for C1: a page with a mount element but no data container. -/
theorem missing_container_aborts_witness :
    domContentLoadedHandler pageNoData parseEmptyArray =
      { console := [.error [.str "Éléments events-data introuvable !"]]
        calendar := none
        renderCalls := 0 } :=
  missing_container_aborts pageNoData parseEmptyArray rfl

/-- C2: when the data container is present but deserialization of its
text fails, the handler catches the failure, logs a diagnostic carrying
the failure detail, and still constructs and renders the calendar with
the initial empty array as data source. -/
theorem parse_failure_renders_empty (g : String → Option Element)
    (p : String → Except String Json) (ed : Element) (e : String)
    (hge : g "events-data" = some ed) (hp : p ed.textContent = Except.error e) :
    domContentLoadedHandler g p =
      { console := [.error [.str "Erreur lors de l\x27analyse des événements :", .str e]]
        calendar := some (g "calendar", agendaConfig (Json.arr []))
        renderCalls := 1 } := by
  simp [domContentLoadedHandler, hge, hp]

/-- Witness for C2: a page whose container text never deserializes. -/
theorem parse_failure_renders_empty_witness :
    domContentLoadedHandler pageWithData parseAlwaysFails =
      { console := [.error [.str "Erreur lors de l\x27analyse des événements :",
                            .str "unexpected token"]]
        calendar := some (pageWithData "calendar", agendaConfig (Json.arr []))
        renderCalls := 1 } :=
  parse_failure_renders_empty pageWithData parseAlwaysFails
    { textContent := "[]" } "unexpected token" rfl rfl

/-- C3: when the container text deserializes to a JSON array, the events
field of the constructed configuration is exactly that array, same
elements in the same order, with no validation or transformation. -/
theorem valid_array_passed_unchanged (g : String → Option Element)
    (p : String → Except String Json) (ed : Element) (xs : List Json)
    (hge : g "events-data" = some ed)
    (hp : p ed.textContent = Except.ok (Json.arr xs)) :
    (domContentLoadedHandler g p).eventsSource = some (Json.arr xs) := by
  simp [domContentLoadedHandler, InitResult.eventsSource, agendaConfig, hge, hp]

/-- Witness for C3: the container text is the empty array literal. -/
theorem valid_array_passed_unchanged_witness :
    (domContentLoadedHandler pageWithData parseEmptyArray).eventsSource =
      some (Json.arr []) :=
  valid_array_passed_unchanged pageWithData parseEmptyArray
    { textContent := "[]" } [] rfl rfl

/-- C4: whichever two page states and deserializers produce a constructed
calendar, the two configurations agree on every field other than the
events data source, and always report French locale, a 07:00 to 20:00
time window, and no all-day row. -/
theorem config_constant_across_loads
    (g₁ g₂ : String → Option Element) (p₁ p₂ : String → Except String Json)
    (m₁ m₂ : Option Element) (c₁ c₂ : CalendarConfig)
    (h₁ : (domContentLoadedHandler g₁ p₁).calendar = some (m₁, c₁))
    (h₂ : (domContentLoadedHandler g₂ p₂).calendar = some (m₂, c₂)) :
    c₁.initialView = c₂.initialView ∧
    c₁.headerToolbar = c₂.headerToolbar ∧
    c₁.eventDisplay = c₂.eventDisplay ∧
    c₁.eventTimeFormat = c₂.eventTimeFormat ∧
    c₁.locale = c₂.locale ∧
    c₁.height = c₂.height ∧
    c₁.allDaySlot = c₂.allDaySlot ∧
    c₁.slotMinTime = c₂.slotMinTime ∧
    c₁.slotMaxTime = c₂.slotMaxTime ∧
    c₁.locale = "fr" ∧
    c₁.slotMinTime = "07:00:00" ∧
    c₁.slotMaxTime = "20:00:00" ∧
    c₁.allDaySlot = false := by
  obtain ⟨ev₁, rfl⟩ := handler_calendar_shape g₁ p₁ m₁ c₁ h₁
  obtain ⟨ev₂, rfl⟩ := handler_calendar_shape g₂ p₂ m₂ c₂ h₂
  simp [agendaConfig]

/-- Witness for C4: two loads, one succeeding with an empty array and one
failing to deserialize, both constructing a calendar. -/
theorem config_constant_across_loads_witness :
    (agendaConfig (Json.arr [])).locale = (agendaConfig (Json.arr [])).locale ∧
    (agendaConfig (Json.arr [])).locale = "fr" ∧
    (agendaConfig (Json.arr [])).slotMinTime = "07:00:00" ∧
    (agendaConfig (Json.arr [])).slotMaxTime = "20:00:00" ∧
    (agendaConfig (Json.arr [])).allDaySlot = false :=
  have h := config_constant_across_loads
    pageWithData pageWithData parseEmptyArray parseAlwaysFails
    (pageWithData "calendar") (pageWithData "calendar")
    (agendaConfig (Json.arr [])) (agendaConfig (Json.arr []))
    rfl rfl
  ⟨h.2.2.2.2.1, h.2.2.2.2.2.2.2.2.2.1, h.2.2.2.2.2.2.2.2.2.2.1,
   h.2.2.2.2.2.2.2.2.2.2.2.1, h.2.2.2.2.2.2.2.2.2.2.2.2⟩

/-- C5: whenever a calendar is constructed, its configuration fields
other than the events data source are exactly the constants of the
source: timeGridWeek initial view, the prev,next today / title /
dayGridMonth,timeGridWeek,timeGridDay,listWeek toolbar, block event
display, 2-digit 24-hour time format, fr locale, auto height, no all-day
slot, and slot times 07:00:00 to 20:00:00. -/
theorem constructed_config_exact (g : String → Option Element)
    (p : String → Except String Json) (m : Option Element) (c : CalendarConfig)
    (h : (domContentLoadedHandler g p).calendar = some (m, c)) :
    c.initialView = "timeGridWeek" ∧
    c.headerToolbar = { left := "prev,next today", center := "title",
                        right := "dayGridMonth,timeGridWeek,timeGridDay,listWeek" } ∧
    c.eventDisplay = "block" ∧
    c.eventTimeFormat = { hour := "2-digit", minute := "2-digit", hour12 := false } ∧
    c.locale = "fr" ∧
    c.height = "auto" ∧
    c.allDaySlot = false ∧
    c.slotMinTime = "07:00:00" ∧
    c.slotMaxTime = "20:00:00" := by
  obtain ⟨ev, rfl⟩ := handler_calendar_shape g p m c h
  simp [agendaConfig]

/-- Witness for C5: the configuration of a successful load of the page
with an empty event array. -/
theorem constructed_config_exact_witness :
    (agendaConfig (Json.arr [])).initialView = "timeGridWeek" ∧
    (agendaConfig (Json.arr [])).headerToolbar =
      { left := "prev,next today", center := "title",
        right := "dayGridMonth,timeGridWeek,timeGridDay,listWeek" } ∧
    (agendaConfig (Json.arr [])).eventDisplay = "block" ∧
    (agendaConfig (Json.arr [])).eventTimeFormat =
      { hour := "2-digit", minute := "2-digit", hour12 := false } ∧
    (agendaConfig (Json.arr [])).locale = "fr" ∧
    (agendaConfig (Json.arr [])).height = "auto" ∧
    (agendaConfig (Json.arr [])).allDaySlot = false ∧
    (agendaConfig (Json.arr [])).slotMinTime = "07:00:00" ∧
    (agendaConfig (Json.arr [])).slotMaxTime = "20:00:00" :=
  constructed_config_exact pageWithData parseEmptyArray
    (pageWithData "calendar") (agendaConfig (Json.arr [])) rfl

/-- C6: the handler constructs a calendar and calls render exactly once
precisely when the data container element is present, whether or not the
deserialization of its text succeeds. -/
theorem render_iff_container_present (g : String → Option Element)
    (p : String → Except String Json) :
    ((domContentLoadedHandler g p).calendar.isSome = true ∧
     (domContentLoadedHandler g p).renderCalls = 1) ↔
    (g "events-data").isSome = true := by
  cases hge : g "events-data" with
  | none => simp [domContentLoadedHandler, hge]
  | some ed =>
    cases hp : p ed.textContent with
    | ok v => simp [domContentLoadedHandler, hge, hp]
    | error e => simp [domContentLoadedHandler, hge, hp]

/-- Counterexample to C7: on a concrete page whose container text
deserializes successfully, the handler still writes to the console (the
loaded-events log of agenda.js line 14), so a successful run is not
silent. -/
theorem success_path_logs_counterexample :
    pageWithData "events-data" = some { textContent := "[]" } ∧
    parseEmptyArray "[]" = Except.ok (Json.arr []) ∧
    (domContentLoadedHandler pageWithData parseEmptyArray).console =
      [.log [.str "Événements chargés :", .json (Json.arr [])]] ∧
    (domContentLoadedHandler pageWithData parseEmptyArray).console ≠ [] := by
  refine ⟨rfl, rfl, rfl, ?_⟩
  simp [domContentLoadedHandler, pageWithData, parseEmptyArray]

/-- C7 amended: on a run where the data container is present and its
text deserializes successfully, the handler writes exactly one console
entry, an informational loaded-events log, and no error-level
diagnostic; error-level diagnostics appear only on the two failure
paths. -/
theorem success_path_logs_only_info (g : String → Option Element)
    (p : String → Except String Json) (ed : Element) (v : Json)
    (hge : g "events-data" = some ed) (hp : p ed.textContent = Except.ok v) :
    (domContentLoadedHandler g p).console =
      [.log [.str "Événements chargés :", .json v]] ∧
    ((domContentLoadedHandler g p).console.all fun entry => !entry.isError) = true := by
  constructor
  · simp [domContentLoadedHandler, hge, hp]
  · simp [domContentLoadedHandler, hge, hp, ConsoleEntry.isError]

/-- Witness for the amended C7: a successful load of the concrete page. -/
theorem success_path_logs_only_info_witness :
    (domContentLoadedHandler pageWithData parseEmptyArray).console =
      [.log [.str "Événements chargés :", .json (Json.arr [])]] ∧
    ((domContentLoadedHandler pageWithData parseEmptyArray).console.all
      fun entry => !entry.isError) = true :=
  success_path_logs_only_info pageWithData parseEmptyArray
    { textContent := "[]" } (Json.arr []) rfl rfl

/-- C8: the handler never checks the mount element: when the data
container is present but no element with identifier calendar exists, no
abort path is taken, the library constructor is invoked with the absent
(none) mount element, and render is still called once. -/
theorem missing_mount_not_checked (g : String → Option Element)
    (p : String → Except String Json) (ed : Element)
    (hge : g "events-data" = some ed) (hcal : g "calendar" = none) :
    (domContentLoadedHandler g p).mountArg = some none ∧
    (domContentLoadedHandler g p).renderCalls = 1 := by
  cases hp : p ed.textContent with
  | ok v => simp [domContentLoadedHandler, InitResult.mountArg, hge, hcal, hp]
  | error e => simp [domContentLoadedHandler, InitResult.mountArg, hge, hcal, hp]

/-- Witness for C8: a page holding the data container only. -/
theorem missing_mount_not_checked_witness :
    (domContentLoadedHandler pageNoMount parseEmptyArray).mountArg = some none ∧
    (domContentLoadedHandler pageNoMount parseEmptyArray).renderCalls = 1 :=
  missing_mount_not_checked pageNoMount parseEmptyArray
    { textContent := "[]" } rfl rfl

/-- C9: whenever deserialization succeeds, its value is passed to the
library unchanged as the data source, even when it is not an array, with
no error-level diagnostic and no substitution of the empty array. -/
theorem parsed_value_passed_unchanged (g : String → Option Element)
    (p : String → Except String Json) (ed : Element) (v : Json)
    (hge : g "events-data" = some ed) (hp : p ed.textContent = Except.ok v) :
    (domContentLoadedHandler g p).eventsSource = some v ∧
    ((domContentLoadedHandler g p).console.all fun entry => !entry.isError) = true := by
  constructor
  · simp [domContentLoadedHandler, InitResult.eventsSource, agendaConfig, hge, hp]
  · simp [domContentLoadedHandler, hge, hp, ConsoleEntry.isError]

/-- Witness for C9: the deserializer returns the non-array value 42. -/
theorem parsed_value_passed_unchanged_witness :
    (domContentLoadedHandler pageWithData parseNum42).eventsSource =
      some (Json.num 42) ∧
    ((domContentLoadedHandler pageWithData parseNum42).console.all
      fun entry => !entry.isError) = true :=
  parsed_value_passed_unchanged pageWithData parseNum42
    { textContent := "[]" } (Json.num 42) rfl rfl

/-- C10: the deserialization step is total: for every container text and
every outcome of the deserializer, the handler completes with a
well-defined events value, the deserialized value on success and the
initial empty array on failure. -/
theorem parse_step_total (g : String → Option Element)
    (p : String → Except String Json) (ed : Element)
    (hge : g "events-data" = some ed) :
    (domContentLoadedHandler g p).eventsSource =
      some (match p ed.textContent with
            | .ok v => v
            | .error _ => Json.arr []) := by
  cases hp : p ed.textContent with
  | ok v => simp [domContentLoadedHandler, InitResult.eventsSource, agendaConfig, hge, hp]
  | error e => simp [domContentLoadedHandler, InitResult.eventsSource, agendaConfig, hge, hp]

/-- Witness for C10: the always-failing deserializer yields the initial
empty array as the events value. -/
theorem parse_step_total_witness :
    (domContentLoadedHandler pageWithData parseAlwaysFails).eventsSource =
      some (match parseAlwaysFails "[]" with
            | .ok v => v
            | .error _ => Json.arr []) :=
  parse_step_total pageWithData parseAlwaysFails { textContent := "[]" } rfl
